import Mathlib

/-!
Verification of the payments-company-infra stack.

The repository declares an AWS CDK stack (`PaymentsCompanyInfraStack` in
`src/payments_company_infra/payments_company_infra_stack.py`, instantiated
once by `src/app.py`): a VPC, an EKS cluster with a managed node group and a
CloudWatch observability binding, an Aurora MySQL cluster with its security
group, and a list of CloudFormation outputs.  Synthesis is a pure,
declaration-time construction, so we embed it shallowly: each CDK construct
becomes a Lean structure holding the parameters the stack passes to it, and
each `_create_*` method of the stack becomes a Lean definition building those
structures with the literal arguments of the source.  Synthesis-time
attribute references (VPC id, cluster endpoint, secret ARN, ...) are
unresolved tokens in CDK; we render them as distinctive `token:`-prefixed
strings.
-/

/-- An IPv4 CIDR block: a base address (as a number below `2^32`) and a
prefix length. -/
structure Cidr where
  base : Nat
  maskLen : Nat
deriving DecidableEq, Repr

/-- Membership of a (numeric) IPv4 address in a CIDR block: the address is a
valid 32-bit value and agrees with the base on the first `maskLen` bits. -/
def Cidr.contains (c : Cidr) (ip : Nat) : Bool :=
  decide (ip < 2 ^ 32) &&
    (ip / 2 ^ (32 - c.maskLen) == c.base / 2 ^ (32 - c.maskLen))

/-- Numeric value of a dotted-quad IPv4 address. -/
def ipv4 (a b c d : Nat) : Nat :=
  ((a * 256 + b) * 256 + c) * 256 + d

/-- `ec2.SubnetType` of the CDK: reachability class of a subnet. -/
inductive SubnetType where
  | PUBLIC
  | PRIVATE_WITH_EGRESS
  | PRIVATE_ISOLATED
deriving DecidableEq, Repr

/-- One entry of the `subnet_configuration` argument of `ec2.Vpc`. -/
structure SubnetConfiguration where
  name : String
  subnet_type : SubnetType
  cidr_mask : Nat
deriving DecidableEq, Repr

/-- The parameters the stack passes to the `ec2.Vpc` construct
(`_create_vpc`, lines 46-67 of the source). -/
structure VpcProps where
  vpc_name : String
  cidr : Cidr
  max_azs : Nat
  nat_gateways : Nat
  subnet_configuration : List SubnetConfiguration
  enable_dns_hostnames : Bool
  enable_dns_support : Bool
deriving DecidableEq, Repr

/-- A synthesized subnet: which configuration entry produced it, in which
availability zone, with which reachability class and prefix length. -/
structure Subnet where
  name : String
  az : Nat
  subnet_type : SubnetType
  cidr_mask : Nat
deriving DecidableEq, Repr

/-- A synthesized VPC. -/
structure Vpc where
  vpc_name : String
  vpc_id : String
  vpc_cidr_block : Cidr
  subnets : List Subnet
  nat_gateway_count : Nat
  enable_dns_hostnames : Bool
  enable_dns_support : Bool
deriving DecidableEq, Repr

/-- Models the CDK `ec2.Vpc` construct's subnet allocation as documented:
one subnet per entry of `subnet_configuration` per availability zone (the
stack deploys into a region offering at least `max_azs` zones, so exactly
`max_azs` zones are used), and one NAT gateway per zone that hosts a public
subnet, capped at the requested `nat_gateways` count.  The VPC id is a
synthesis-time token. -/
def Vpc.synthesize (props : VpcProps) : Vpc :=
  { vpc_name := props.vpc_name
    vpc_id := "token:" ++ props.vpc_name ++ ":VpcId"
    vpc_cidr_block := props.cidr
    subnets :=
      (List.range props.max_azs).flatMap (fun az =>
        props.subnet_configuration.map (fun cfg =>
          { name := cfg.name ++ "Subnet" ++ toString (az + 1)
            az := az
            subnet_type := cfg.subnet_type
            cidr_mask := cfg.cidr_mask }))
    nat_gateway_count :=
      if props.subnet_configuration.any (fun c => c.subnet_type == SubnetType.PUBLIC) then
        min props.nat_gateways props.max_azs
      else 0
    enable_dns_hostnames := props.enable_dns_hostnames
    enable_dns_support := props.enable_dns_support }

/-- `PaymentsCompanyInfraStack._create_vpc`: the VPC declaration with the
literal arguments of the source (address block `10.0.0.0/16`, 3 AZs, 3 NAT
gateways, one public and one private-with-egress `/24` configuration, DNS
hostnames and support enabled). -/
def PaymentsCompanyInfraStack.create_vpc : Vpc :=
  Vpc.synthesize
    { vpc_name := "payments-vpc"
      cidr := { base := ipv4 10 0 0 0, maskLen := 16 }
      max_azs := 3
      nat_gateways := 3
      subnet_configuration :=
        [ { name := "Public"
            subnet_type := SubnetType.PUBLIC
            cidr_mask := 24 },
          { name := "Private"
            subnet_type := SubnetType.PRIVATE_WITH_EGRESS
            cidr_mask := 24 } ]
      enable_dns_hostnames := true
      enable_dns_support := true }

/-- Claim C1: the network declarator, given address block `10.0.0.0/16` and 3
zones, produces exactly 6 subnets — 3 public and 3 private-with-egress, one
of each per zone — each with a `/24` mask, exactly 3 NAT gateways, and DNS
hostnames and DNS resolution enabled. -/
theorem c1_network_topology :
    PaymentsCompanyInfraStack.create_vpc.vpc_cidr_block =
      { base := ipv4 10 0 0 0, maskLen := 16 } ∧
    PaymentsCompanyInfraStack.create_vpc.subnets.length = 6 ∧
    (PaymentsCompanyInfraStack.create_vpc.subnets.filter
      (fun s => s.subnet_type == SubnetType.PUBLIC)).length = 3 ∧
    (PaymentsCompanyInfraStack.create_vpc.subnets.filter
      (fun s => s.subnet_type == SubnetType.PRIVATE_WITH_EGRESS)).length = 3 ∧
    ((List.range 3).all (fun az =>
      (PaymentsCompanyInfraStack.create_vpc.subnets.filter
        (fun s => s.az == az && s.subnet_type == SubnetType.PUBLIC)).length == 1 &&
      (PaymentsCompanyInfraStack.create_vpc.subnets.filter
        (fun s => s.az == az && s.subnet_type == SubnetType.PRIVATE_WITH_EGRESS)).length == 1)
      = true) ∧
    PaymentsCompanyInfraStack.create_vpc.subnets.all
      (fun s => s.cidr_mask == 24) = true ∧
    PaymentsCompanyInfraStack.create_vpc.nat_gateway_count = 3 ∧
    PaymentsCompanyInfraStack.create_vpc.enable_dns_hostnames = true ∧
    PaymentsCompanyInfraStack.create_vpc.enable_dns_support = true := by
  decide

/-- An IAM role: its name, the service principal trusted to assume it, and
the names of the AWS-managed policies attached to it
(`iam.Role` plus the two `add_managed_policy` calls of the source). -/
structure Role where
  role_name : String
  assumed_by : String
  managed_policies : List String
deriving DecidableEq, Repr

/-- A role's ARN is a synthesis-time token naming the role. -/
def Role.role_arn (r : Role) : String :=
  "token:role-arn:" ++ r.role_name

/-- `eks.EndpointAccess`: reachability of the cluster API endpoint. -/
inductive EndpointAccess where
  | PUBLIC
  | PRIVATE
  | PUBLIC_AND_PRIVATE
deriving DecidableEq, Repr

/-- `eks.ClusterLoggingTypes`: the five control-plane log categories. -/
inductive ClusterLoggingTypes where
  | API
  | AUDIT
  | AUTHENTICATOR
  | CONTROLLER_MANAGER
  | SCHEDULER
deriving DecidableEq, Repr

/-- `eks.CapacityType`: billing model of a node group. -/
inductive CapacityType where
  | ON_DEMAND
  | SPOT
deriving DecidableEq, Repr

/-- The synthesized EKS cluster: the parameters the stack passes to
`eks.Cluster` (lines 101-118 of the source) plus its synthesis-time
attribute tokens. -/
structure EksCluster where
  cluster_name : String
  version : String
  vpc_id : String
  vpc_subnets : List SubnetType
  default_capacity : Nat
  endpoint_access : EndpointAccess
  cluster_logging : List ClusterLoggingTypes
  cluster_endpoint : String
  cluster_arn : String
deriving DecidableEq, Repr

/-- The managed node group added by `add_nodegroup_capacity`
(lines 121-132 of the source). -/
structure Nodegroup where
  nodegroup_name : String
  instance_types : List String
  min_size : Nat
  max_size : Nat
  desired_size : Nat
  disk_size : Nat
  subnets : SubnetType
  capacity_type : CapacityType
  ami_type : String
deriving DecidableEq, Repr

/-- `eks.CfnPodIdentityAssociation`: binds a role to a service account in a
namespace of the cluster. -/
structure PodIdentityAssociation where
  cluster_name : String
  k8s_namespace : String
  service_account : String
  role_arn : String
deriving DecidableEq, Repr

/-- `eks.CfnAddon`: an add-on registration against the cluster. -/
structure CfnAddon where
  addon_name : String
  cluster_name : String
  resolve_conflicts : String
deriving DecidableEq, Repr

/-- Everything `_create_eks_cluster` declares: the observability role, the
cluster, the node group, the pod-identity association and the add-on. -/
structure EksResources where
  cloudwatch_observability_role : Role
  eks_cluster : EksCluster
  nodegroup : Nodegroup
  pod_identity : PodIdentityAssociation
  addon : CfnAddon
deriving DecidableEq, Repr

/-- `PaymentsCompanyInfraStack._create_eks_cluster`: the EKS declarations
with the literal arguments of the source (lines 85-151). -/
def PaymentsCompanyInfraStack.create_eks_cluster (vpc : Vpc) : EksResources :=
  let cloudwatch_observability_role : Role :=
    { role_name := "PaymentsEKSCloudWatchObservabilityRole"
      assumed_by := "pods.eks.amazonaws.com"
      managed_policies :=
        ["CloudWatchAgentServerPolicy", "AWSXrayWriteOnlyAccess"] }
  let eks_cluster : EksCluster :=
    { cluster_name := "payments-eks-cluster"
      version := "1.32"
      vpc_id := vpc.vpc_id
      vpc_subnets := [SubnetType.PRIVATE_WITH_EGRESS]
      default_capacity := 0
      endpoint_access := EndpointAccess.PUBLIC_AND_PRIVATE
      cluster_logging :=
        [ ClusterLoggingTypes.API,
          ClusterLoggingTypes.AUDIT,
          ClusterLoggingTypes.AUTHENTICATOR,
          ClusterLoggingTypes.CONTROLLER_MANAGER,
          ClusterLoggingTypes.SCHEDULER ]
      cluster_endpoint := "token:payments-eks-cluster:Endpoint"
      cluster_arn := "token:payments-eks-cluster:Arn" }
  { cloudwatch_observability_role := cloudwatch_observability_role
    eks_cluster := eks_cluster
    nodegroup :=
      { nodegroup_name := "payments-worker-nodes"
        instance_types := ["m6a.large"]
        min_size := 2
        max_size := 2
        desired_size := 2
        disk_size := 50
        subnets := SubnetType.PRIVATE_WITH_EGRESS
        capacity_type := CapacityType.ON_DEMAND
        ami_type := "AL2023_X86_64_STANDARD" }
    pod_identity :=
      { cluster_name := eks_cluster.cluster_name
        k8s_namespace := "amazon-cloudwatch"
        service_account := "cloudwatch-agent"
        role_arn := cloudwatch_observability_role.role_arn }
    addon :=
      { addon_name := "amazon-cloudwatch-observability"
        cluster_name := eks_cluster.cluster_name
        resolve_conflicts := "OVERWRITE" } }

/-- Transport protocol of a security-group rule (`ec2.Port`). -/
inductive Protocol where
  | tcp
  | udp
  | icmp
deriving DecidableEq, Repr

/-- One ingress permission of a security group
(one `add_ingress_rule` call). -/
structure IngressRule where
  peer : Cidr
  protocol : Protocol
  from_port : Nat
  to_port : Nat
  description : String
deriving DecidableEq, Repr

/-- A security group (`ec2.SecurityGroup`): name, description, the
`allow_all_outbound` flag, and its accumulated ingress rules. -/
structure SecurityGroup where
  security_group_name : String
  description : String
  allow_all_outbound : Bool
  ingress_rules : List IngressRule
deriving DecidableEq, Repr

/-- `SecurityGroup.add_ingress_rule`: appends one ingress permission. -/
def SecurityGroup.add_ingress_rule (sg : SecurityGroup) (rule : IngressRule) :
    SecurityGroup :=
  { sg with ingress_rules := sg.ingress_rules ++ [rule] }

/-- Whether a single ingress rule admits a packet: the source address lies in
the rule's peer block, the protocol matches, and the port is in the rule's
range. -/
def IngressRule.admits (r : IngressRule) (src_ip : Nat) (proto : Protocol)
    (port : Nat) : Bool :=
  r.peer.contains src_ip && decide (proto = r.protocol) &&
    decide (r.from_port ≤ port) && decide (port ≤ r.to_port)

/-- Whether a security group admits an inbound packet: some ingress rule
admits it. -/
def SecurityGroup.admits_ingress (sg : SecurityGroup) (src_ip : Nat)
    (proto : Protocol) (port : Nat) : Bool :=
  sg.ingress_rules.any (fun r => r.admits src_ip proto port)

/-- Whether a security group admits an outbound packet: always, when the
group was declared with `allow_all_outbound=True` (the EC2 model then keeps
an allow-all egress rule on the group). -/
def SecurityGroup.admits_egress (sg : SecurityGroup) (_dst_ip : Nat)
    (_proto : Protocol) (_port : Nat) : Bool :=
  sg.allow_all_outbound

/-- `rds.Credentials`: an admin user name together with either the name
under which a secret is to be generated, or a literal password — the source
uses `Credentials.from_generated_secret`, so the password is absent. -/
structure Credentials where
  username : String
  secret_name : Option String
  password_literal : Option String
deriving DecidableEq, Repr

/-- `rds.Credentials.from_generated_secret(username, secret_name=...)`:
credentials generated into an external secret, never a literal password. -/
def Credentials.from_generated_secret (username secret_name : String) :
    Credentials :=
  { username := username
    secret_name := some secret_name
    password_literal := none }

/-- A generated secret held in the external secret store: its fixed name and
its (synthesis-time token) ARN. -/
structure Secret where
  secret_name : String
  secret_arn : String
deriving DecidableEq, Repr

/-- `rds.ClusterInstance.provisioned(id, instance_type=...)`. -/
structure ClusterInstance where
  id : String
  instance_type : String
deriving DecidableEq, Repr

/-- `ec2.InstanceType.of(instance_class, instance_size)` as the usual
`class.size` name. -/
def InstanceType.of (instance_class instance_size : String) : String :=
  instance_class ++ "." ++ instance_size

/-- `RemovalPolicy`: disposition of the resource on stack teardown. -/
inductive RemovalPolicy where
  | DESTROY
  | RETAIN
  | SNAPSHOT
deriving DecidableEq, Repr

/-- The parameters the stack passes to `rds.DatabaseCluster`
(lines 189-224 of the source). -/
structure DatabaseClusterProps where
  cluster_identifier : String
  engine_version : String
  credentials : Credentials
  default_database_name : String
  writer : ClusterInstance
  readers : List ClusterInstance
  vpc_subnets : SubnetType
  security_groups : List SecurityGroup
  storage_encrypted : Bool
  backup_retention_days : Nat
  deletion_protection : Bool
  removal_policy : RemovalPolicy
deriving DecidableEq, Repr

/-- The synthesized database cluster: the declared parameters plus the
derived attributes — the generated-secret reference (present exactly when
the credentials carry a secret name to generate) and the endpoint hostname
tokens. -/
structure DatabaseCluster extends DatabaseClusterProps where
  secret : Option Secret
  cluster_endpoint_hostname : String
  cluster_read_endpoint_hostname : String
deriving DecidableEq, Repr

/-- Models the CDK `rds.DatabaseCluster` construct: the generated secret is
attached iff the credentials ask for one; endpoints are synthesis-time
tokens naming the cluster. -/
def DatabaseCluster.synthesize (p : DatabaseClusterProps) : DatabaseCluster :=
  { toDatabaseClusterProps := p
    secret := p.credentials.secret_name.map (fun n =>
      { secret_name := n, secret_arn := "token:secret-arn:" ++ n })
    cluster_endpoint_hostname :=
      "token:" ++ p.cluster_identifier ++ ":Endpoint:hostname"
    cluster_read_endpoint_hostname :=
      "token:" ++ p.cluster_identifier ++ ":ReadEndpoint:hostname" }

/-- Everything `_create_aurora_cluster` declares: the security group and the
database cluster. -/
structure AuroraResources where
  aurora_security_group : SecurityGroup
  aurora_cluster : DatabaseCluster
deriving DecidableEq, Repr

/-- `PaymentsCompanyInfraStack._create_aurora_cluster`: the Aurora
declarations with the literal arguments of the source (lines 160-231).  The
security group is created with `allow_all_outbound=True` and then receives a
single ingress rule: TCP 3306 from the VPC's own CIDR block. -/
def PaymentsCompanyInfraStack.create_aurora_cluster (vpc : Vpc) :
    AuroraResources :=
  let aurora_security_group : SecurityGroup :=
    SecurityGroup.add_ingress_rule
      { security_group_name := "payments-aurora-sg"
        description := "Security group for Aurora MySQL cluster"
        allow_all_outbound := true
        ingress_rules := [] }
      { peer := vpc.vpc_cidr_block
        protocol := Protocol.tcp
        from_port := 3306
        to_port := 3306
        description := "Allow MySQL access from VPC" }
  { aurora_security_group := aurora_security_group
    aurora_cluster :=
      DatabaseCluster.synthesize
        { cluster_identifier := "payments-aurora-cluster"
          engine_version := "aurora-mysql:3.08.0"
          credentials :=
            Credentials.from_generated_secret "payments_admin"
              "payments/aurora/credentials"
          default_database_name := "payments"
          writer :=
            { id := "Writer", instance_type := InstanceType.of "r6g" "large" }
          readers :=
            [ { id := "Reader"
                instance_type := InstanceType.of "r6g" "large" } ]
          vpc_subnets := SubnetType.PRIVATE_WITH_EGRESS
          security_groups := [aurora_security_group]
          storage_encrypted := true
          backup_retention_days := 7
          deletion_protection := false
          removal_policy := RemovalPolicy.DESTROY } }

/-- A CloudFormation output (`CfnOutput`): logical id, value, description,
and the optional `export_name` under which it is exported for cross-stack
lookup.  The source omits `export_name` on one of its eight outputs, hence
the `Option`. -/
structure CfnOutput where
  id : String
  value : String
  description : String
  export_name : Option String
deriving DecidableEq, Repr

/-- The `AuroraSecretArn` output (lines 300-306 of the source): the guarded
projection of the cluster's generated-secret reference, substituting the
sentinel `N/A` when the reference is absent. -/
def aurora_secret_arn_output (aurora_cluster : DatabaseCluster) : CfnOutput :=
  { id := "AuroraSecretArn"
    value :=
      match aurora_cluster.secret with
      | some s => s.secret_arn
      | none => "N/A"
    description := "ARN of the secret containing Aurora credentials"
    export_name := some "PaymentsAuroraSecretArn" }

/-- `PaymentsCompanyInfraStack._create_outputs` (lines 233-306 of the
source): the eight `CfnOutput` declarations, in source order, with their
literal descriptions and export names.  The `EksKubectlCommand` output is
the one declared without an `export_name`. -/
def PaymentsCompanyInfraStack.create_outputs (vpc : Vpc)
    (eks_cluster : EksCluster) (aurora_cluster : DatabaseCluster) :
    List CfnOutput :=
  [ { id := "VpcId"
      value := vpc.vpc_id
      description := "VPC ID"
      export_name := some "PaymentsVpcId" },
    { id := "EksClusterName"
      value := eks_cluster.cluster_name
      description := "EKS Cluster Name"
      export_name := some "PaymentsEksClusterName" },
    { id := "EksClusterEndpoint"
      value := eks_cluster.cluster_endpoint
      description := "EKS Cluster API Endpoint"
      export_name := some "PaymentsEksClusterEndpoint" },
    { id := "EksClusterArn"
      value := eks_cluster.cluster_arn
      description := "EKS Cluster ARN"
      export_name := some "PaymentsEksClusterArn" },
    { id := "EksKubectlCommand"
      value := "aws eks update-kubeconfig --name " ++
        eks_cluster.cluster_name ++ " --region ${AWS_REGION}"
      description := "Command to configure kubectl"
      export_name := none },
    { id := "AuroraClusterEndpoint"
      value := aurora_cluster.cluster_endpoint_hostname
      description := "Aurora MySQL Cluster Writer Endpoint"
      export_name := some "PaymentsAuroraClusterEndpoint" },
    { id := "AuroraClusterReaderEndpoint"
      value := aurora_cluster.cluster_read_endpoint_hostname
      description := "Aurora MySQL Cluster Reader Endpoint"
      export_name := some "PaymentsAuroraClusterReaderEndpoint" },
    aurora_secret_arn_output aurora_cluster ]

/-- The synthesized template of the whole stack: every resource declared by
`PaymentsCompanyInfraStack.__init__`, plus the outputs. -/
structure StackTemplate where
  vpc : Vpc
  cloudwatch_observability_role : Role
  eks_cluster : EksCluster
  nodegroup : Nodegroup
  pod_identity : PodIdentityAssociation
  addon : CfnAddon
  aurora_security_group : SecurityGroup
  aurora_cluster : DatabaseCluster
  outputs : List CfnOutput
deriving DecidableEq, Repr

/-- `PaymentsCompanyInfraStack.__init__` (lines 25-38 of the source): the
declarators invoked once each, in dependency order — VPC, then EKS, then
Aurora, then outputs. -/
def PaymentsCompanyInfraStack.synth : StackTemplate :=
  let vpc := PaymentsCompanyInfraStack.create_vpc
  let eks := PaymentsCompanyInfraStack.create_eks_cluster vpc
  let aurora := PaymentsCompanyInfraStack.create_aurora_cluster vpc
  { vpc := vpc
    cloudwatch_observability_role := eks.cloudwatch_observability_role
    eks_cluster := eks.eks_cluster
    nodegroup := eks.nodegroup
    pod_identity := eks.pod_identity
    addon := eks.addon
    aurora_security_group := aurora.aurora_security_group
    aurora_cluster := aurora.aurora_cluster
    outputs :=
      PaymentsCompanyInfraStack.create_outputs vpc eks.eks_cluster
        aurora.aurora_cluster }

/-- `src/app.py`: `cdk.App()` then `PaymentsCompanyInfraStack(app, ...)` then
`app.synth()`.  One synthesis invocation takes no inputs and produces the
stack's template. -/
def app_synth : Unit → StackTemplate :=
  fun _ => PaymentsCompanyInfraStack.synth

/-- Claim C2: in every synthesized graph the worker pool is a single
fixed-size node group with min = max = desired = 2 (no autoscaling),
homogeneous instances of the one named shape `m6a.large`, 50-unit local
disk, on-demand billing, and placement in the private-with-egress
subnets. -/
theorem c2_worker_pool_fixed_size :
    PaymentsCompanyInfraStack.synth.nodegroup.min_size = 2 ∧
    PaymentsCompanyInfraStack.synth.nodegroup.max_size = 2 ∧
    PaymentsCompanyInfraStack.synth.nodegroup.desired_size = 2 ∧
    PaymentsCompanyInfraStack.synth.nodegroup.instance_types = ["m6a.large"] ∧
    PaymentsCompanyInfraStack.synth.nodegroup.disk_size = 50 ∧
    PaymentsCompanyInfraStack.synth.nodegroup.capacity_type =
      CapacityType.ON_DEMAND ∧
    PaymentsCompanyInfraStack.synth.nodegroup.subnets =
      SubnetType.PRIVATE_WITH_EGRESS := by
  decide

/-- Claim C3: the database's security boundary carries exactly one ingress
permission, and a packet is admitted by the boundary iff it is TCP, on port
3306, and its source address lies inside the network block's own CIDR range
(`10.0.0.0/16`); every other source or port is rejected. -/
theorem c3_db_boundary_ingress :
    PaymentsCompanyInfraStack.synth.aurora_security_group.ingress_rules.length
      = 1 ∧
    ∀ (src_ip port : Nat) (proto : Protocol),
      PaymentsCompanyInfraStack.synth.aurora_security_group.admits_ingress
          src_ip proto port = true ↔
        (Cidr.contains { base := ipv4 10 0 0 0, maskLen := 16 } src_ip = true ∧
         proto = Protocol.tcp ∧ port = 3306) := by
  have hsg :
      PaymentsCompanyInfraStack.synth.aurora_security_group.ingress_rules =
        [ { peer := { base := ipv4 10 0 0 0, maskLen := 16 }
            protocol := Protocol.tcp
            from_port := 3306
            to_port := 3306
            description := "Allow MySQL access from VPC" } ] := rfl
  refine ⟨by rw [hsg]; rfl, ?_⟩
  intro src_ip port proto
  simp only [SecurityGroup.admits_ingress, hsg, List.any_cons, List.any_nil,
    Bool.or_false, IngressRule.admits, Bool.and_eq_true, decide_eq_true_eq]
  constructor
  · rintro ⟨⟨⟨h1, h2⟩, h3⟩, h4⟩
    exact ⟨h1, h2, le_antisymm h4 h3⟩
  · rintro ⟨h1, h2, rfl⟩
    exact ⟨⟨⟨h1, h2⟩, le_refl _⟩, le_refl _⟩

/-- Witness for C3: a concrete packet — TCP on port 3306 from `10.0.5.7`,
an address inside the network block — is admitted by the boundary. -/
theorem c3_db_boundary_ingress_witness :
    PaymentsCompanyInfraStack.synth.aurora_security_group.admits_ingress
      (ipv4 10 0 5 7) Protocol.tcp 3306 = true :=
  (c3_db_boundary_ingress.2 (ipv4 10 0 5 7) 3306 Protocol.tcp).mpr
    ⟨by decide, rfl, rfl⟩

/-- Claim C4: the `AuroraSecretArn` output equals the sentinel `N/A` iff the
cluster's generated-secret reference is absent, and when the reference is
present the output equals that secret's ARN.  (The hypothesis records that a
present secret's ARN is never the literal sentinel string — in the stack it
is a synthesis-time token.) -/
theorem c4_secret_arn_sentinel (c : DatabaseCluster)
    (h : c.secret.all (fun s => decide (s.secret_arn ≠ "N/A")) = true) :
    ((aurora_secret_arn_output c).value = "N/A" ↔ c.secret = none) ∧
    c.secret.all
      (fun s => (aurora_secret_arn_output c).value == s.secret_arn) = true := by
  cases hsec : c.secret with
  | none =>
    simp [aurora_secret_arn_output, hsec, Option.all]
  | some s =>
    rw [hsec] at h
    simp only [Option.all, decide_eq_true_eq] at h
    simp [aurora_secret_arn_output, hsec, Option.all, h]

/-- Witness for C4: the sentinel characterization instantiated at the
synthesized Aurora cluster, whose generated secret is present. -/
theorem c4_secret_arn_sentinel_witness :
    ((aurora_secret_arn_output
        PaymentsCompanyInfraStack.synth.aurora_cluster).value = "N/A" ↔
      PaymentsCompanyInfraStack.synth.aurora_cluster.secret = none) ∧
    PaymentsCompanyInfraStack.synth.aurora_cluster.secret.all
      (fun s =>
        (aurora_secret_arn_output
          PaymentsCompanyInfraStack.synth.aurora_cluster).value ==
          s.secret_arn) = true :=
  c4_secret_arn_sentinel PaymentsCompanyInfraStack.synth.aurora_cluster
    (by decide)

/-- Claim C5: the database declarator produces a replicated cluster with
exactly one writer and one reader of identical compute shape (`r6g.large`),
default schema name `payments`, storage encryption enabled, 7-day backup
retention, credentials generated into the external secret store under the
fixed name `payments/aurora/credentials` and never passed as a literal,
deletion protection disabled, and a destroy-on-teardown removal policy. -/
theorem c5_database_cluster_params :
    PaymentsCompanyInfraStack.synth.aurora_cluster.writer.id = "Writer" ∧
    PaymentsCompanyInfraStack.synth.aurora_cluster.readers.length = 1 ∧
    PaymentsCompanyInfraStack.synth.aurora_cluster.writer.instance_type =
      InstanceType.of "r6g" "large" ∧
    PaymentsCompanyInfraStack.synth.aurora_cluster.readers.all
      (fun r => r.instance_type ==
        PaymentsCompanyInfraStack.synth.aurora_cluster.writer.instance_type)
      = true ∧
    PaymentsCompanyInfraStack.synth.aurora_cluster.default_database_name =
      "payments" ∧
    PaymentsCompanyInfraStack.synth.aurora_cluster.storage_encrypted = true ∧
    PaymentsCompanyInfraStack.synth.aurora_cluster.backup_retention_days = 7 ∧
    PaymentsCompanyInfraStack.synth.aurora_cluster.credentials.secret_name =
      some "payments/aurora/credentials" ∧
    PaymentsCompanyInfraStack.synth.aurora_cluster.credentials.password_literal
      = none ∧
    PaymentsCompanyInfraStack.synth.aurora_cluster.secret =
      some { secret_name := "payments/aurora/credentials"
             secret_arn := "token:secret-arn:payments/aurora/credentials" } ∧
    PaymentsCompanyInfraStack.synth.aurora_cluster.deletion_protection
      = false ∧
    PaymentsCompanyInfraStack.synth.aurora_cluster.removal_policy =
      RemovalPolicy.DESTROY := by
  decide

/-- Claim C6: the cluster declarator produces a control plane pinned to
orchestration-platform version 1.32, placed only in the private-with-egress
subnets, with endpoint access both public and private, and all five
control-plane audit-log categories enabled. -/
theorem c6_control_plane_params :
    PaymentsCompanyInfraStack.synth.eks_cluster.version = "1.32" ∧
    PaymentsCompanyInfraStack.synth.eks_cluster.vpc_subnets =
      [SubnetType.PRIVATE_WITH_EGRESS] ∧
    PaymentsCompanyInfraStack.synth.eks_cluster.endpoint_access =
      EndpointAccess.PUBLIC_AND_PRIVATE ∧
    PaymentsCompanyInfraStack.synth.eks_cluster.cluster_logging =
      [ ClusterLoggingTypes.API,
        ClusterLoggingTypes.AUDIT,
        ClusterLoggingTypes.AUTHENTICATOR,
        ClusterLoggingTypes.CONTROLLER_MANAGER,
        ClusterLoggingTypes.SCHEDULER ] := by
  decide

/-- Claim C7: synthesis takes no inputs and is a pure construction, so any
two synthesis invocations yield structurally identical templates — the same
resources with the same parameter values. -/
theorem c7_synth_idempotent :
    (∀ u v : Unit, app_synth u = app_synth v) ∧
    app_synth () = PaymentsCompanyInfraStack.synth :=
  ⟨fun _ _ => rfl, rfl⟩

/-- Claim C8: the observability binding is an identity role trusted by the
pod-identity service principal, carrying exactly the two pre-defined
permission sets (metrics-write `CloudWatchAgentServerPolicy` and
tracing-write `AWSXrayWriteOnlyAccess`), a workload-identity association
binding that role to the `cloudwatch-agent` service account in the
`amazon-cloudwatch` namespace of the cluster, and an add-on registration
with conflict-resolution policy `OVERWRITE`. -/
theorem c8_observability_binding :
    PaymentsCompanyInfraStack.synth.cloudwatch_observability_role.assumed_by =
      "pods.eks.amazonaws.com" ∧
    PaymentsCompanyInfraStack.synth.cloudwatch_observability_role.managed_policies
      = ["CloudWatchAgentServerPolicy", "AWSXrayWriteOnlyAccess"] ∧
    PaymentsCompanyInfraStack.synth.cloudwatch_observability_role.managed_policies.length
      = 2 ∧
    PaymentsCompanyInfraStack.synth.pod_identity.cluster_name =
      PaymentsCompanyInfraStack.synth.eks_cluster.cluster_name ∧
    PaymentsCompanyInfraStack.synth.pod_identity.k8s_namespace =
      "amazon-cloudwatch" ∧
    PaymentsCompanyInfraStack.synth.pod_identity.service_account =
      "cloudwatch-agent" ∧
    PaymentsCompanyInfraStack.synth.pod_identity.role_arn =
      PaymentsCompanyInfraStack.synth.cloudwatch_observability_role.role_arn ∧
    PaymentsCompanyInfraStack.synth.addon.addon_name =
      "amazon-cloudwatch-observability" ∧
    PaymentsCompanyInfraStack.synth.addon.cluster_name =
      PaymentsCompanyInfraStack.synth.eks_cluster.cluster_name ∧
    PaymentsCompanyInfraStack.synth.addon.resolve_conflicts = "OVERWRITE" := by
  decide

/-- Counterexample to C9: the synthesized outputs contain one — the
`EksKubectlCommand` credential-configuration command output — that is
declared without any export name, so not every output is exported under a
fixed, stable export name. -/
theorem c9_counterexample_kubectl_not_exported :
    PaymentsCompanyInfraStack.synth.outputs.any
      (fun o => o.id == "EksKubectlCommand" && o.export_name == none)
      = true := by
  decide

/-- Claim C9 as amended: every output except the credential-configuration
command string is exported under a fixed, stable export name — the exact
id-to-export-name table of the eight outputs, in which only
`EksKubectlCommand` carries no export name. -/
theorem c9_output_export_names :
    PaymentsCompanyInfraStack.synth.outputs.map
      (fun o => (o.id, o.export_name)) =
      [ ("VpcId", some "PaymentsVpcId"),
        ("EksClusterName", some "PaymentsEksClusterName"),
        ("EksClusterEndpoint", some "PaymentsEksClusterEndpoint"),
        ("EksClusterArn", some "PaymentsEksClusterArn"),
        ("EksKubectlCommand", none),
        ("AuroraClusterEndpoint", some "PaymentsAuroraClusterEndpoint"),
        ("AuroraClusterReaderEndpoint",
          some "PaymentsAuroraClusterReaderEndpoint"),
        ("AuroraSecretArn", some "PaymentsAuroraSecretArn") ] := by
  decide

/-- Claim C10 (implicit): the database's security boundary is declared with
unrestricted egress — every outbound packet is admitted, whatever its
destination, protocol or port — so the only-port-3306 restriction applies
exclusively to inbound traffic. -/
theorem c10_unrestricted_egress :
    PaymentsCompanyInfraStack.synth.aurora_security_group.allow_all_outbound
      = true ∧
    ∀ (dst_ip port : Nat) (proto : Protocol),
      PaymentsCompanyInfraStack.synth.aurora_security_group.admits_egress
        dst_ip proto port = true :=
  ⟨rfl, fun _ _ _ => rfl⟩
